import Mathlib

/-!
Verification development for the Deep-Researcher repository.

The repository's core is a research-orchestration state machine
(`app/models/research_agent.py`), a RAG knowledge store
(`app/utils/rag_utils.py`) and a thin RAG orchestrator
(`app/models/rag_agent.py`).  This file gives a shallow embedding of those
parts in Lean and proves properties of the embedding.

Python strings are modelled as `List Char` (a Python `str` is a sequence of
code points).  The helper functions `pySplit`, `pyStrip`, `pyStartsWith`,
`pyDrop` and `pyContains` model `str.split(sep)`, `str.strip()`,
`str.startswith(p)`, `s[n:]` and `p in s` respectively; they are written with
structural (or fuel-based) recursion so that they evaluate inside the kernel.

External collaborators (the search providers behind each tool, the Ollama
reflection/summary chains, the embedding model, FAISS persistence) are
modelled as explicit parameters: provider text is an arbitrary function of
the query, and the two LLM chains may either return text or raise, modelled
with `Except`.
-/

/-- Python strings as sequences of code points. -/
abbrev PyStr := List Char

/-- Fuel-driven worker for `pySplit`.  `acc` holds the chars of the current
piece in reverse order.  The fuel is an upper bound on the number of
characters still to be scanned, so the `fuel = 0` case is never reached when
called through `pySplit`. -/
def pySplitGo (sep : List Char) : Nat → List Char → List Char → List (List Char)
  | 0, s, acc => [acc.reverse ++ s]
  | fuel + 1, s, acc =>
    match s with
    | [] => [acc.reverse]
    | c :: rest =>
      if sep.isPrefixOf (c :: rest) then
        acc.reverse :: pySplitGo sep fuel ((c :: rest).drop sep.length) []
      else
        pySplitGo sep fuel rest (c :: acc)

/-- Models Python `s.split(sep)` for a nonempty separator `sep`: splits at
every leftmost non-overlapping occurrence of `sep`. -/
def pySplit (sep s : List Char) : List (List Char) :=
  pySplitGo sep (s.length + 1) s []

/-- Models Python `s.strip()`: remove whitespace from both ends. -/
def pyStrip (s : PyStr) : PyStr :=
  ((s.dropWhile Char.isWhitespace).reverse.dropWhile Char.isWhitespace).reverse

/-- Models Python `s.startswith(pre)`. -/
def pyStartsWith (s pre : PyStr) : Bool :=
  pre.isPrefixOf s

/-- Models Python `s[n:]`. -/
def pyDrop (n : Nat) (s : PyStr) : PyStr :=
  s.drop n

/-- Models Python `pat in hay` (substring containment). -/
def pyContains (pat : PyStr) : PyStr → Bool
  | [] => pat.isEmpty
  | c :: rest => pat.isPrefixOf (c :: rest) || pyContains pat rest

/- ----------------------------------------------------------------------
Knowledge store (`app/utils/rag_utils.py`).
---------------------------------------------------------------------- -/

/-- A LangChain `Document`: page content plus caller-supplied metadata. -/
structure RagDoc where
  page_content : PyStr
  metadata : List (String × String)
deriving DecidableEq

/-- The on-disk index directory of one collection, as seen by
`RAGSystem._init_vector_store`: the path may be missing, hold a
corrupt/unreadable index, or hold a loadable index with the given
documents. -/
inductive DiskIndex
  | missing
  | corrupt
  | valid (docs : List RagDoc)
deriving DecidableEq

/-- Models `os.path.exists(path) and os.path.isdir(path)` for the
collection directory. -/
def disk_exists : DiskIndex → Bool
  | .missing => false
  | _ => true

/-- Models `FAISS.load_local`: succeeds exactly on a loadable index and
raises (here: returns `.error`) on a corrupt one or a missing path. -/
def faiss_load_local : DiskIndex → Except String (List RagDoc)
  | .missing => .error "No such file or directory"
  | .corrupt => .error "could not deserialize the index"
  | .valid docs => .ok docs

/-- The placeholder chunk `Document(page_content="Initialization document",
metadata={})` used by `RAGSystem._create_new_vector_store`. -/
def initialization_document : RagDoc :=
  { page_content := "Initialization document".toList, metadata := [] }

/-- The in-memory vector store contents paired with the on-disk index of
the collection (every mutating call persists synchronously, so the two are
carried together). -/
structure RAGStoreState where
  docs : List RagDoc
  disk : DiskIndex
deriving DecidableEq

/-- Models `RAGSystem._create_new_vector_store`: build a store holding only
the placeholder chunk and save it to disk immediately. -/
def rag_create_new_vector_store : RAGStoreState :=
  { docs := [initialization_document], disk := .valid [initialization_document] }

/-- Models `RAGSystem._init_vector_store`: if the path exists, try to load;
on a load failure fall back to a fresh store; if the path does not exist,
create a fresh store. -/
def rag_init_vector_store (disk : DiskIndex) : RAGStoreState :=
  if disk_exists disk then
    match faiss_load_local disk with
    | .ok docs => { docs := docs, disk := disk }
    | .error _ => rag_create_new_vector_store
  else
    rag_create_new_vector_store

/-- Models `RAGSystem.add_text`: chunk the text (the splitter
`chunk_document` is an external collaborator, passed in as `chunker`),
append one document per chunk, persist, and return the chunk count. -/
def rag_add_text (chunker : PyStr → List PyStr) (st : RAGStoreState)
    (text : PyStr) (metadata : List (String × String)) : Nat × RAGStoreState :=
  let chunks := chunker text
  let documents := chunks.map (fun c => RagDoc.mk c metadata)
  let docs2 := st.docs ++ documents
  (chunks.length, { docs := docs2, disk := .valid docs2 })

/-- The raw FAISS index object (`self.vector_store.index`): a native
similarity index.  It exposes the number of stored vectors (`ntotal`) but,
crucially, no `index_to_docstore_id` attribute — that mapping is an
attribute of the LangChain `FAISS` wrapper object, not of the raw index it
wraps. -/
structure FaissNativeIndex where
  ntotal : Nat
deriving DecidableEq

/-- The LangChain `FAISS` vector-store wrapper: the raw index, the
docstore, and the position-to-docstore-id mapping (which lives here, on the
wrapper). -/
structure FAISSVectorStore where
  index : FaissNativeIndex
  docstore : List RagDoc
  index_to_docstore_id : List String
deriving DecidableEq

/-- Models the attribute access `index.index_to_docstore_id` performed by
`RAGSystem.get_collection_info` on the RAW index object.  The raw FAISS
index has no such attribute (the mapping is defined on the wrapper, see
`FAISSVectorStore`), so in Python this access raises `AttributeError`,
which the surrounding bare `except:` then swallows. -/
def faiss_native_index_to_docstore_id (_i : FaissNativeIndex) :
    Except String (List String) :=
  .error "AttributeError: index_to_docstore_id"

/-- The dictionary returned by `RAGSystem.get_collection_info`. -/
structure CollectionInfo where
  collection_name : String
  vector_count : Nat
  vector_db_path : String
  embedding_model : String
deriving DecidableEq

/-- Models `RAGSystem.get_collection_info`: try
`len(self.vector_store.index.index_to_docstore_id)` and fall back to `0` on
any exception.  It only reads the store (the signature returns no updated
store), so it is read-only by construction. -/
def get_collection_info (collection_name vector_db_path embedding_model : String)
    (vs : FAISSVectorStore) : CollectionInfo :=
  let vector_count :=
    match faiss_native_index_to_docstore_id vs.index with
    | .ok ids => ids.length
    | .error _ => 0
  { collection_name := collection_name
    vector_count := vector_count
    vector_db_path := vector_db_path
    embedding_model := embedding_model }

/-- The number of live vectors of a store: the size of the wrapper's
position-to-docstore-id mapping (what the source comment "check how many
vectors it contains" is after). -/
def live_vector_count (vs : FAISSVectorStore) : Nat :=
  vs.index_to_docstore_id.length

/-- The vector store produced for a fresh collection: it holds exactly the
one placeholder chunk, so one vector. -/
def fresh_vector_store : FAISSVectorStore :=
  { index := { ntotal := 1 }
    docstore := [initialization_document]
    index_to_docstore_id := ["0"] }

/- ----------------------------------------------------------------------
Structured-record parsing inside the search-processing transitions
(`app/models/research_agent.py`).
---------------------------------------------------------------------- -/

/-- The `current_paper` dictionary built by `process_academic_search`: a
field is `none` when the corresponding key is absent. -/
structure PaperRec where
  title : Option PyStr := none
  url : Option PyStr := none
  authors : Option PyStr := none
  published : Option PyStr := none
  abstract : Option PyStr := none
deriving DecidableEq

/-- Python truthiness of the `current_paper` dict: it is nonempty iff some
key has been set. -/
def paper_nonempty (p : PaperRec) : Bool :=
  p.title.isSome || p.url.isSome || p.authors.isSome || p.published.isSome ||
    p.abstract.isSome

/-- The guard `all(k in current_paper for k in ['title', 'url', 'abstract'])`. -/
def paper_complete (p : PaperRec) : Bool :=
  p.title.isSome && p.url.isSome && p.abstract.isSome

/-- One iteration of the line loop inside `process_academic_search`. -/
def parse_paper_line (p : PaperRec) (rawLine : PyStr) : PaperRec :=
  let line := pyStrip rawLine
  if pyStartsWith line "Title:".toList then
    { p with title := some (pyStrip (pyDrop 6 line)) }
  else if pyStartsWith line "URL:".toList then
    { p with url := some (pyStrip (pyDrop 4 line)) }
  else if pyStartsWith line "Authors:".toList then
    { p with authors := some (pyStrip (pyDrop 8 line)) }
  else if pyStartsWith line "Published:".toList then
    { p with published := some (pyStrip (pyDrop 10 line)) }
  else if pyStartsWith line "Abstract:".toList then
    { p with abstract := some (pyStrip (pyDrop 9 line)) }
  else p

/-- Parse all lines of one `Title:`-opening section into a fresh
`current_paper`. -/
def parse_paper_section (sec : PyStr) : PaperRec :=
  (pySplit "\n".toList sec).foldl parse_paper_line {}

/-- The section loop of `process_academic_search`: blank sections are
skipped; a section starting with `Title:` first saves the previous
`current_paper` (if nonempty and complete) and then starts a new one; any
other section is ignored.  At the end the last `current_paper` is saved
under the same guard. -/
def academic_fold : List PyStr → PaperRec → List PaperRec → List PaperRec
  | [], cur, papers =>
    if paper_nonempty cur && paper_complete cur then papers ++ [cur] else papers
  | sec :: rest, cur, papers =>
    if pyStrip sec = [] then
      academic_fold rest cur papers
    else if pyStartsWith sec "Title:".toList then
      let papers2 :=
        if paper_nonempty cur && paper_complete cur then papers ++ [cur] else papers
      academic_fold rest (parse_paper_section sec) papers2
    else
      academic_fold rest cur papers

/-- The structured papers extracted by `process_academic_search` from the
raw academic-search text (split on blank lines). -/
def parse_academic_papers (search_result : PyStr) : List PaperRec :=
  academic_fold (pySplit "\n\n".toList search_result) {} []

/-- The `current_video` dictionary built by `process_youtube_search`. -/
structure VideoRec where
  title : Option PyStr := none
  url : Option PyStr := none
  description : Option PyStr := none
deriving DecidableEq

/-- Python truthiness of the `current_video` dict. -/
def video_nonempty (v : VideoRec) : Bool :=
  v.title.isSome || v.url.isSome || v.description.isSome

/-- The guard `all(k in current_video for k in ['title', 'url'])`. -/
def video_complete (v : VideoRec) : Bool :=
  v.title.isSome && v.url.isSome

/-- The line loop of `process_youtube_search`: a blank line saves the
current video (if nonempty and complete) and always resets it; `Title:`,
`URL:` and `Description:` lines set the corresponding key.  At the end the
last video is saved under the same guard. -/
def youtube_fold : List PyStr → VideoRec → List VideoRec → List VideoRec
  | [], cur, vids =>
    if video_nonempty cur && video_complete cur then vids ++ [cur] else vids
  | rawLine :: rest, cur, vids =>
    let line := pyStrip rawLine
    if line = [] then
      let vids2 :=
        if video_nonempty cur && video_complete cur then vids ++ [cur] else vids
      youtube_fold rest {} vids2
    else if pyStartsWith line "Title:".toList then
      youtube_fold rest { cur with title := some (pyStrip (pyDrop 6 line)) } vids
    else if pyStartsWith line "URL:".toList then
      youtube_fold rest { cur with url := some (pyStrip (pyDrop 4 line)) } vids
    else if pyStartsWith line "Description:".toList then
      youtube_fold rest { cur with description := some (pyStrip (pyDrop 12 line)) } vids
    else
      youtube_fold rest cur vids

/-- The structured videos extracted by `process_youtube_search` from the
raw youtube-search text (split on newlines). -/
def parse_youtube_videos (search_result : PyStr) : List VideoRec :=
  youtube_fold (pySplit "\n".toList search_result) {} []

/- ----------------------------------------------------------------------
Research orchestrator data model (`app/models/research_agent.py`).
---------------------------------------------------------------------- -/

/-- The value stored under the `links` key of a `SearchLog`: the web node
stores a literal empty list, the academic node a list of papers, the
youtube node a list of videos. -/
inductive LinksVal
  | emptyList
  | papers (ps : List PaperRec)
  | videos (vs : List VideoRec)
deriving DecidableEq

/-- One `SearchLog` entry.  `links` is `none` when the key is absent (the
social-media node appends its log entry without a `links` key). -/
structure SearchLog where
  source : PyStr
  query : PyStr
  results : PyStr
  links : Option LinksVal
deriving DecidableEq

/-- The `ResearchState` TypedDict threaded through every transition. -/
structure ResearchState where
  question : PyStr
  search_logs : List SearchLog
  current_answer : PyStr
  final_answer : Option PyStr
  needs_more_research : Bool
  next_search_strategy : Option PyStr
  background_info : Option PyStr
  key_areas : Option (List PyStr)
  challenges : Option (List PyStr)
deriving DecidableEq

/-- The per-source enable flags of `SearchConfig` (`app/utils/config.py`). -/
structure SearchConfig where
  web_search_enabled : Bool
  arxiv_search_enabled : Bool
  scholar_search_enabled : Bool
  youtube_search_enabled : Bool
  twitter_search_enabled : Bool
  linkedin_search_enabled : Bool
deriving DecidableEq

/-- The external collaborators of one run: the provider aggregations behind
each search tool (arbitrary text as a function of the query) and the two
Ollama chains, which either return text or raise. -/
structure Env where
  web_providers : PyStr → PyStr
  academic_providers : PyStr → PyStr
  youtube_providers : PyStr → PyStr
  social_media_providers : PyStr → PyStr
  reflection_chain : PyStr → PyStr → Except String PyStr
  summary_chain : PyStr → PyStr → Except String PyStr

/-- Models the `web_search` tool (`app/utils/search_tools.py`): when web
search is disabled in configuration it returns the literal disabled
message without consulting any provider; otherwise the aggregated provider
output (results, error strings, or the no-results message) is abstracted
as `env.web_providers`. -/
def web_search_run (cfg : SearchConfig) (env : Env) (query : PyStr) : PyStr :=
  if cfg.web_search_enabled then env.web_providers query
  else "Web search is disabled.".toList

/-- Models the `academic_search` tool: with both arXiv and Scholar disabled
the results list stays empty and the tool returns its no-results message;
otherwise the formatted provider output is abstracted as
`env.academic_providers`. -/
def academic_search_run (cfg : SearchConfig) (env : Env) (query : PyStr) : PyStr :=
  if cfg.arxiv_search_enabled || cfg.scholar_search_enabled then
    env.academic_providers query
  else "No academic search results found or academic search is disabled.".toList

/-- Models the `youtube_search` tool: disabled short-circuit, provider
output abstracted otherwise. -/
def youtube_search_run (cfg : SearchConfig) (env : Env) (query : PyStr) : PyStr :=
  if cfg.youtube_search_enabled then env.youtube_providers query
  else "YouTube search is disabled.".toList

/-- Models the `social_media_search` tool: with both Twitter and LinkedIn
disabled the results list stays empty and the tool returns its
disabled/no-results message; otherwise abstracted provider output. -/
def social_media_search_run (cfg : SearchConfig) (env : Env) (query : PyStr) : PyStr :=
  if cfg.twitter_search_enabled || cfg.linkedin_search_enabled then
    env.social_media_providers query
  else "Social media search is disabled or no results found.".toList

/-- Models `process_web_search`: run the tool, append one log entry with
source `web` (and a literal empty `links` list), extend the running
narrative, and clear the strategy for the reflection phase. -/
def process_web_search (cfg : SearchConfig) (env : Env) (s : ResearchState) :
    ResearchState :=
  let search_result := web_search_run cfg env s.question
  { s with
    search_logs := s.search_logs ++
      [{ source := "web".toList, query := s.question, results := search_result,
         links := some .emptyList }]
    current_answer :=
      s.current_answer ++ "\n\n## Web Search Results\n".toList ++ search_result
    next_search_strategy := none }

/-- Nat rendering used for the 1-based numbering in the academic markdown
(`f"### {i}. ..."`). -/
def natToPyStr (n : Nat) : PyStr :=
  (Nat.repr n).toList

/-- Abstract truncation in the academic markdown: abstracts longer than 500
characters are cut and suffixed with an ellipsis. -/
def truncate_abstract (a : PyStr) : PyStr :=
  if 500 < a.length then a.take 500 ++ "...".toList else a

/-- The markdown block rendered for one paper by `process_academic_search`
(the `title` and `url` lookups are guarded by `paper_complete`, so the
`getD` defaults are never used on kept papers). -/
def format_paper (i : Nat) (p : PaperRec) : PyStr :=
  "### ".toList ++ natToPyStr i ++ ". [".toList ++ p.title.getD [] ++
    "](".toList ++ p.url.getD [] ++ ")\n\n".toList ++
  (match p.authors with
   | some a => "**Authors:** ".toList ++ a ++ "\n\n".toList
   | none => []) ++
  (match p.published with
   | some d => "**Published:** ".toList ++ d ++ "\n\n".toList
   | none => []) ++
  (match p.abstract with
   | some a => "**Abstract:**\n".toList ++ truncate_abstract a ++ "\n\n".toList
   | none => []) ++
  "---\n\n".toList

/-- Render the numbered paper list starting at index `i`. -/
def format_papers_from : Nat → List PaperRec → PyStr
  | _, [] => []
  | i, p :: rest => format_paper i p ++ format_papers_from (i + 1) rest

/-- The full academic markdown (`formatted_result`). -/
def format_academic_result (papers : List PaperRec) : PyStr :=
  "## Academic Sources\n\n".toList ++
    (if papers.isEmpty then "*No academic papers found for this query.*\n\n".toList
     else format_papers_from 1 papers)

/-- Models `process_academic_search`: run the tool, parse the structured
papers, render the markdown, append one log entry with source `academic`
(storing the structured papers under `links`), extend the narrative, clear
the strategy. -/
def process_academic_search (cfg : SearchConfig) (env : Env) (s : ResearchState) :
    ResearchState :=
  let search_result := academic_search_run cfg env s.question
  let papers := parse_academic_papers search_result
  let formatted_result := format_academic_result papers
  { s with
    search_logs := s.search_logs ++
      [{ source := "academic".toList, query := s.question,
         results := formatted_result, links := some (.papers papers) }]
    current_answer := s.current_answer ++ "\n\n".toList ++ formatted_result
    next_search_strategy := none }

/-- Models `video['url'].split('v=')[-1].split('&')[0]`. -/
def youtube_video_id (url : PyStr) : PyStr :=
  (pySplit "&".toList ((pySplit "v=".toList url).getLastD [])).headD []

/-- The markdown block rendered for one video by `process_youtube_search`
(`title` and `url` are guarded by `video_complete`). -/
def format_video (v : VideoRec) : PyStr :=
  "### ".toList ++ v.title.getD [] ++ "\n\n".toList ++
  "<iframe width=\"560\" height=\"315\" src=\"https://www.youtube.com/embed/".toList ++
    youtube_video_id (v.url.getD []) ++
    "\" frameborder=\"0\" allowfullscreen></iframe>\n\n".toList ++
  (match v.description with
   | some d => if d = [] then [] else d ++ "\n\n".toList
   | none => []) ++
  "---\n\n".toList

/-- The full youtube markdown (`formatted_result`). -/
def format_youtube_result (videos : List VideoRec) : PyStr :=
  "## Related Videos\n\n".toList ++
    (if videos.isEmpty then "*No relevant videos found for this query.*\n\n".toList
     else (videos.map format_video).flatten)

/-- Models `process_youtube_search`: run the tool, parse the structured
videos, render the markdown, append one log entry with source `youtube`
(storing the structured videos under `links`), extend the narrative, clear
the strategy. -/
def process_youtube_search (cfg : SearchConfig) (env : Env) (s : ResearchState) :
    ResearchState :=
  let search_result := youtube_search_run cfg env s.question
  let videos := parse_youtube_videos search_result
  let formatted_result := format_youtube_result videos
  { s with
    search_logs := s.search_logs ++
      [{ source := "youtube".toList, query := s.question,
         results := formatted_result, links := some (.videos videos) }]
    current_answer := s.current_answer ++ "\n\n".toList ++ formatted_result
    next_search_strategy := none }

/-- Models `process_social_media_search`: run the tool, append one log
entry with source `social_media` (no `links` key), extend the narrative,
clear the strategy. -/
def process_social_media_search (cfg : SearchConfig) (env : Env)
    (s : ResearchState) : ResearchState :=
  let search_result := social_media_search_run cfg env s.question
  { s with
    search_logs := s.search_logs ++
      [{ source := "social_media".toList, query := s.question,
         results := search_result, links := none }]
    current_answer := s.current_answer ++ "\n\n".toList ++ search_result
    next_search_strategy := none }

/-- The count `len([log for log in search_logs if log["source"] == "web"])`. -/
def count_web_logs (logs : List SearchLog) : Nat :=
  (logs.filter (fun log => log.source == "web".toList)).length

/-- The number of web-sourced log entries of a state. -/
def web_log_count (s : ResearchState) : Nat :=
  count_web_logs s.search_logs

/-- The loop counter of `reflect_on_research`: web-sourced entries minus
one (a Python `int`, so it reads `-1` when there is no web entry). -/
def loops_completed (s : ResearchState) : Int :=
  (web_log_count s : Int) - 1

/-- The `search_sequence` list of `reflect_on_research`, with the
per-source enablement expressions from the configuration. -/
def search_sequence (cfg : SearchConfig) : List (PyStr × Bool) :=
  [("web".toList, cfg.web_search_enabled),
   ("academic".toList, cfg.arxiv_search_enabled || cfg.scholar_search_enabled),
   ("youtube".toList, cfg.youtube_search_enabled),
   ("social_media".toList, cfg.twitter_search_enabled || cfg.linkedin_search_enabled)]

/-- The `for source, enabled in search_sequence` loop: the first enabled
source not yet present in `sources_used`, rendered as `f"{source}_search"`. -/
def next_in_sequence : List (PyStr × Bool) → List PyStr → Option PyStr
  | [], _ => none
  | (src, enabled) :: rest, used =>
    if !(used.contains src) && enabled then some (src ++ "_search".toList)
    else next_in_sequence rest used

/-- The literal continuation marker looked up in the reflection text. -/
def further_research_marker : PyStr :=
  "FURTHER_RESEARCH_NEEDED: Yes".toList

/-- Models `reflect_on_research` given the text produced by the reflection
chain: detect the continuation marker, compute the loop counter, apply the
hard cap at `loops_completed >= 2`, otherwise pick the next strategy in the
fixed sequence (falling back to a new `web_search` loop when every source
is already present in the log and the budget is not exhausted), and append
the reflection commentary to the narrative. -/
def reflect_on_research (cfg : SearchConfig) (reflection : PyStr)
    (s : ResearchState) : ResearchState :=
  let needs_more_research := pyContains further_research_marker reflection
  let loops := loops_completed s
  let verdict : Bool × Option PyStr :=
    if 2 ≤ loops then
      (false, some "summarize".toList)
    else if needs_more_research then
      match next_in_sequence (search_sequence cfg)
          (s.search_logs.map (fun log => log.source)) with
      | some strat => (true, some strat)
      | none =>
        if loops < 2 then (true, some "web_search".toList)
        else (true, some "summarize".toList)
    else
      (false, some "summarize".toList)
  { s with
    current_answer := s.current_answer ++
      "\n\n### Research Progress Analysis\n".toList ++ reflection ++ "\n".toList
    needs_more_research := verdict.1
    next_search_strategy := verdict.2 }

/-- The evidence document assembled by `create_final_summary` before the
synthesis call: heading plus the rendered results of every log entry. -/
def organized_content (s : ResearchState) : PyStr :=
  "# Research Analysis: ".toList ++ s.question ++ "\n\n".toList ++
    (s.search_logs.map (fun log => log.results ++ "\n\n".toList)).flatten

/-- Models `create_final_summary` given the text produced by the summary
chain: set the final answer and clear the continuation flag. -/
def create_final_summary (final : PyStr) (s : ResearchState) : ResearchState :=
  { s with final_answer := some final, needs_more_research := false }

/-- Models `route_search`: pure dispatch on the strategy string (a `None`
strategy, like any unknown value, falls to the `answer` default). -/
def route_search (s : ResearchState) : PyStr :=
  let strategy := s.next_search_strategy
  if strategy = some "web_search".toList then "web_search".toList
  else if strategy = some "academic_search".toList then "academic_search".toList
  else if strategy = some "youtube_search".toList then "youtube_search".toList
  else if strategy = some "social_media_search".toList then "social_media_search".toList
  else if strategy = some "summarize".toList then "summarize".toList
  else "answer".toList

/-- Models `should_continue`: summarize beats the continuation flag; with
no more research needed and no summarize strategy the run ends. -/
def should_continue (s : ResearchState) : PyStr :=
  if s.next_search_strategy = some "summarize".toList then "summarize".toList
  else if s.needs_more_research then "continue".toList
  else "end".toList

/-- The nodes of the compiled workflow graph (`create_research_agent`),
plus a terminal `finished` marker for `END`. -/
inductive Node
  | route
  | web
  | academic
  | youtube
  | social
  | reflect
  | summarize
  | finished
deriving DecidableEq

/-- The conditional-edge table attached to `route_search`: both the
`summarize` and the default `answer` labels lead to the summarize node. -/
def route_edge (label : PyStr) : Node :=
  if label = "web_search".toList then .web
  else if label = "academic_search".toList then .academic
  else if label = "youtube_search".toList then .youtube
  else if label = "social_media_search".toList then .social
  else .summarize

/-- The conditional-edge table attached to `should_continue`. -/
def continue_edge (label : PyStr) : Node :=
  if label = "continue".toList then .route
  else if label = "summarize".toList then .summarize
  else .finished

/-- One superstep of the compiled workflow: execute the node, then follow
its (conditional) edge.  The reflection and summary chains may raise, which
the workflow does not catch, so the step is `Except`-valued. -/
def stepFn (cfg : SearchConfig) (env : Env) :
    Node → ResearchState → Except String (Node × ResearchState)
  | .route, s => .ok (route_edge (route_search s), s)
  | .web, s => .ok (.reflect, process_web_search cfg env s)
  | .academic, s => .ok (.reflect, process_academic_search cfg env s)
  | .youtube, s => .ok (.reflect, process_youtube_search cfg env s)
  | .social, s => .ok (.reflect, process_social_media_search cfg env s)
  | .reflect, s =>
    match env.reflection_chain s.question s.current_answer with
    | .error e => .error e
    | .ok reflection =>
      let s2 := reflect_on_research cfg reflection s
      .ok (continue_edge (should_continue s2), s2)
  | .summarize, s =>
    match env.summary_chain s.question (organized_content s) with
    | .error e => .error e
    | .ok final => .ok (.finished, create_final_summary final s)
  | .finished, s => .ok (.finished, s)

/-- Run the workflow from a node until `END`, with LangGraph's default
recursion limit of 25 supersteps modelled as fuel (exhaustion raises
`GraphRecursionError`). -/
def runNodes (cfg : SearchConfig) (env : Env) :
    Nat → Node → ResearchState → Except String ResearchState
  | 0, n, s => if n = .finished then .ok s else .error "GraphRecursionError"
  | fuel + 1, n, s =>
    if n = .finished then .ok s
    else
      match stepFn cfg env n s with
      | .error e => .error e
      | .ok (n2, s2) => runNodes cfg env fuel n2 s2

/-- The initial state built by `run_research_agent`: strategy seeded to
`web_search`. -/
def initial_state (question : PyStr) : ResearchState :=
  { question := question
    search_logs := []
    current_answer := []
    final_answer := none
    needs_more_research := true
    next_search_strategy := some "web_search".toList
    background_info := none
    key_areas := none
    challenges := none }

/-- Models `agent.invoke(initial_state)`: the whole compiled workflow from
the `route_search` entry point. -/
def agent_invoke (cfg : SearchConfig) (env : Env) (question : PyStr) :
    Except String ResearchState :=
  runNodes cfg env 25 .route (initial_state question)

/-- The second component returned by `run_research_agent`: the final state
on success, or the `{"error": str(e)}` dictionary on an internal
exception. -/
inductive RunResult
  | state (s : ResearchState)
  | errorDict (e : String)
deriving DecidableEq

/-- Models `run_research_agent`: invoke the compiled workflow inside
`try`/`except`.  On success the answer is
`result.get("final_answer", ...)`; the `final_answer` key is always present
(it is set in the initial state), so this is the stored nullable value,
modelled as `Option PyStr`.  On any exception the sentinel failure message
and an error dictionary are returned instead — nothing propagates. -/
def run_research_agent (cfg : SearchConfig) (env : Env) (question : PyStr) :
    Option PyStr × RunResult :=
  match agent_invoke cfg env question with
  | .ok result => (result.final_answer, .state result)
  | .error e =>
    (some "An error occurred while processing your request.".toList, .errorDict e)

/-- The states the compiled workflow can pass through: the initial state at
the entry node, plus everything reachable by successful supersteps. -/
inductive Reachable (cfg : SearchConfig) (env : Env) (q : PyStr) :
    Node → ResearchState → Prop
  | init : Reachable cfg env q .route (initial_state q)
  | step {n s n2 s2} : Reachable cfg env q n s →
      stepFn cfg env n s = .ok (n2, s2) → Reachable cfg env q n2 s2

/- ----------------------------------------------------------------------
RAG orchestrator (`app/models/rag_agent.py`).
---------------------------------------------------------------------- -/

/-- Models the call `rag_system.get_relevant_documents(question)` in
`run_rag_agent`.  The `RAGSystem` class (`app/utils/rag_utils.py`) defines
`add_document`, `add_text`, `retrieve`, `retrieve_with_scores`,
`augment_query` and `get_collection_info` — there is no method named
`get_relevant_documents`, so in Python this attribute access raises
`AttributeError`. -/
def rag_get_relevant_documents (_question : PyStr) : Except String (List RagDoc) :=
  .error "AttributeError: RAGSystem object has no attribute get_relevant_documents"

/-- The second component returned by `run_rag_agent`. -/
inductive RagRunResult
  | state (base : ResearchState) (retrieved_docs : List RagDoc)
  | errorDict (e : String)
deriving DecidableEq

/-- Models `run_rag_agent`: inside `try`, the first statement after
constructing the RAG system is `rag_system.get_relevant_documents(question)`,
which raises `AttributeError` (see `rag_get_relevant_documents`); were it
to succeed, the body would next call `run_research_agent`, a name
`rag_agent.py` never imports, raising `NameError`.  Either way the
`except` clause returns the RAG sentinel message and an error
dictionary. -/
def run_rag_agent (question _collection_name : PyStr) : Option PyStr × RagRunResult :=
  match rag_get_relevant_documents question with
  | .error e =>
    (some "An error occurred while processing your request with RAG.".toList,
     .errorDict e)
  | .ok _docs =>
    (some "An error occurred while processing your request with RAG.".toList,
     .errorDict "NameError: name run_research_agent is not defined")

/- ----------------------------------------------------------------------
Concrete configurations, environments and run observables.
---------------------------------------------------------------------- -/

/-- All four source classes enabled (web, academic via arXiv or Scholar,
video, social via Twitter or LinkedIn). -/
def all_four_enabled (cfg : SearchConfig) : Prop :=
  cfg.web_search_enabled = true ∧
  (cfg.arxiv_search_enabled = true ∨ cfg.scholar_search_enabled = true) ∧
  cfg.youtube_search_enabled = true ∧
  (cfg.twitter_search_enabled = true ∨ cfg.linkedin_search_enabled = true)

/-- All four source classes disabled (every per-source flag off). -/
def all_four_disabled (cfg : SearchConfig) : Prop :=
  cfg.web_search_enabled = false ∧
  cfg.arxiv_search_enabled = false ∧ cfg.scholar_search_enabled = false ∧
  cfg.youtube_search_enabled = false ∧
  cfg.twitter_search_enabled = false ∧ cfg.linkedin_search_enabled = false

/-- Every source flag on. -/
def cfg_all : SearchConfig :=
  { web_search_enabled := true
    arxiv_search_enabled := true
    scholar_search_enabled := true
    youtube_search_enabled := true
    twitter_search_enabled := true
    linkedin_search_enabled := true }

/-- Every source flag off. -/
def cfg_all_disabled : SearchConfig :=
  { web_search_enabled := false
    arxiv_search_enabled := false
    scholar_search_enabled := false
    youtube_search_enabled := false
    twitter_search_enabled := false
    linkedin_search_enabled := false }

/-- Web search off, every other source flag on. -/
def cfg_web_disabled : SearchConfig :=
  { web_search_enabled := false
    arxiv_search_enabled := true
    scholar_search_enabled := true
    youtube_search_enabled := true
    twitter_search_enabled := true
    linkedin_search_enabled := true }

/-- An environment whose reflection chain always asks for more research. -/
def env_yes : Env :=
  { web_providers := fun _ => "W".toList
    academic_providers := fun _ => "A".toList
    youtube_providers := fun _ => "Y".toList
    social_media_providers := fun _ => "S".toList
    reflection_chain := fun _ _ => .ok "FURTHER_RESEARCH_NEEDED: Yes".toList
    summary_chain := fun _ _ => .ok "FINAL".toList }

/-- An environment whose reflection chain never asks for more research. -/
def env_no : Env :=
  { web_providers := fun _ => "W".toList
    academic_providers := fun _ => "A".toList
    youtube_providers := fun _ => "Y".toList
    social_media_providers := fun _ => "S".toList
    reflection_chain := fun _ _ => .ok "FURTHER_RESEARCH_NEEDED: No".toList
    summary_chain := fun _ _ => .ok "FINAL".toList }

/-- An environment whose synthesis service is unreachable: the summary
chain raises. -/
def env_summary_down : Env :=
  { web_providers := fun _ => "W".toList
    academic_providers := fun _ => "A".toList
    youtube_providers := fun _ => "Y".toList
    social_media_providers := fun _ => "S".toList
    reflection_chain := fun _ _ => .ok "FURTHER_RESEARCH_NEEDED: No".toList
    summary_chain := fun _ _ => .error "synthesis service unreachable" }

/-- The observable trace summary of a run: the ordered list of log-entry
sources of the final state, and whether a final answer was produced
(`none` when the workflow raised). -/
def run_sources_and_done (cfg : SearchConfig) (env : Env) (question : PyStr) :
    Option (List PyStr × Bool) :=
  match agent_invoke cfg env question with
  | .ok r => some (r.search_logs.map (fun log => log.source), r.final_answer.isSome)
  | .error _ => none

/- ----------------------------------------------------------------------
Theorems.
---------------------------------------------------------------------- -/

/-- Every paper the academic section loop accumulates passes the
completeness guard, provided every already-accumulated paper does. -/
theorem academic_fold_complete (secs : List PyStr) (cur : PaperRec)
    (papers : List PaperRec) (h : ∀ p ∈ papers, paper_complete p = true) :
    ∀ p ∈ academic_fold secs cur papers, paper_complete p = true := by
  induction secs generalizing cur papers with
  | nil =>
    intro p hp
    unfold academic_fold at hp
    by_cases hc : (paper_nonempty cur && paper_complete cur) = true
    · rw [if_pos hc] at hp
      rcases List.mem_append.mp hp with h1 | h1
      · exact h p h1
      · rw [List.mem_singleton.mp h1]
        exact (Bool.and_eq_true _ _ |>.mp hc).2
    · rw [if_neg hc] at hp
      exact h p hp
  | cons sec rest ih =>
    intro p hp
    unfold academic_fold at hp
    by_cases h0 : pyStrip sec = []
    · rw [if_pos h0] at hp
      exact ih cur papers h p hp
    · rw [if_neg h0] at hp
      by_cases h1 : pyStartsWith sec "Title:".toList = true
      · rw [if_pos h1] at hp
        refine ih (parse_paper_section sec) _ ?_ p hp
        intro q hq
        by_cases hc : (paper_nonempty cur && paper_complete cur) = true
        · rw [if_pos hc] at hq
          rcases List.mem_append.mp hq with h2 | h2
          · exact h q h2
          · rw [List.mem_singleton.mp h2]
            exact (Bool.and_eq_true _ _ |>.mp hc).2
        · rw [if_neg hc] at hq
          exact h q hq
      · rw [if_neg h1] at hp
        exact ih cur papers h p hp

/-- C4: for every raw academic-search text, the academic parsing step keeps
a structured record only if it contains all three of title, url and
abstract; a record missing the `Abstract:` field (or any other required
field) contributes zero structured items, and the parse — total functions
throughout — never raises. -/
theorem academic_records_require_title_url_abstract (raw : PyStr) (p : PaperRec)
    (hp : p ∈ parse_academic_papers raw) :
    p.title.isSome = true ∧ p.url.isSome = true ∧ p.abstract.isSome = true := by
  have hc := academic_fold_complete (pySplit "\n\n".toList raw) {} []
    (by intro q hq; cases hq) p hp
  simpa [paper_complete, Bool.and_eq_true, and_assoc] using hc

/-- Witness for C4: a record carrying all three required fields is kept and
satisfies the completeness conclusion. -/
theorem academic_records_require_title_url_abstract_witness :
    (⟨some "T".toList, some "U".toList, none, none, some "A".toList⟩ : PaperRec) ∈
        parse_academic_papers "Title: T\nURL: U\nAbstract: A".toList ∧
    ((⟨some "T".toList, some "U".toList, none, none, some "A".toList⟩ :
        PaperRec).title.isSome = true ∧
      (⟨some "T".toList, some "U".toList, none, none, some "A".toList⟩ :
        PaperRec).url.isSome = true ∧
      (⟨some "T".toList, some "U".toList, none, none, some "A".toList⟩ :
        PaperRec).abstract.isSome = true) :=
  ⟨by decide,
   academic_records_require_title_url_abstract
     "Title: T\nURL: U\nAbstract: A".toList
     ⟨some "T".toList, some "U".toList, none, none, some "A".toList⟩ (by decide)⟩

/-- Every video the youtube line loop accumulates passes the completeness
guard, provided every already-accumulated video does. -/
theorem youtube_fold_complete (ls : List PyStr) (cur : VideoRec)
    (vids : List VideoRec) (h : ∀ v ∈ vids, video_complete v = true) :
    ∀ v ∈ youtube_fold ls cur vids, video_complete v = true := by
  induction ls generalizing cur vids with
  | nil =>
    intro v hv
    unfold youtube_fold at hv
    by_cases hc : (video_nonempty cur && video_complete cur) = true
    · rw [if_pos hc] at hv
      rcases List.mem_append.mp hv with h1 | h1
      · exact h v h1
      · rw [List.mem_singleton.mp h1]
        exact (Bool.and_eq_true _ _ |>.mp hc).2
    · rw [if_neg hc] at hv
      exact h v hv
  | cons rawLine rest ih =>
    intro v hv
    unfold youtube_fold at hv
    dsimp only at hv
    by_cases h0 : pyStrip rawLine = []
    · rw [if_pos h0] at hv
      refine ih {} _ ?_ v hv
      intro w hw
      by_cases hc : (video_nonempty cur && video_complete cur) = true
      · rw [if_pos hc] at hw
        rcases List.mem_append.mp hw with h2 | h2
        · exact h w h2
        · rw [List.mem_singleton.mp h2]
          exact (Bool.and_eq_true _ _ |>.mp hc).2
      · rw [if_neg hc] at hw
        exact h w hw
    · rw [if_neg h0] at hv
      by_cases h1 : pyStartsWith (pyStrip rawLine) "Title:".toList = true
      · rw [if_pos h1] at hv
        exact ih _ vids h v hv
      · rw [if_neg h1] at hv
        by_cases h2 : pyStartsWith (pyStrip rawLine) "URL:".toList = true
        · rw [if_pos h2] at hv
          exact ih _ vids h v hv
        · rw [if_neg h2] at hv
          by_cases h3 : pyStartsWith (pyStrip rawLine) "Description:".toList = true
          · rw [if_pos h3] at hv
            exact ih _ vids h v hv
          · rw [if_neg h3] at hv
            exact ih cur vids h v hv

/-- C10: for every raw youtube-search text, the video parsing step keeps a
structured record in the log entry's `links` list only when both the title
and the url field are present; a record with a title but no url, or a url
but no title, is discarded, and the parse — total functions throughout —
never raises. -/
theorem youtube_records_require_title_and_url (raw : PyStr) (v : VideoRec)
    (hv : v ∈ parse_youtube_videos raw) :
    v.title.isSome = true ∧ v.url.isSome = true := by
  have hc := youtube_fold_complete (pySplit "\n".toList raw) {} []
    (by intro w hw; cases hw) v hv
  simpa [video_complete, Bool.and_eq_true] using hc

/-- Witness for C10: a record carrying both required fields is kept and
satisfies the completeness conclusion. -/
theorem youtube_records_require_title_and_url_witness :
    (⟨some "T".toList, some "https://www.youtube.com/watch?v=abc".toList, none⟩ :
        VideoRec) ∈
      parse_youtube_videos "Title: T\nURL: https://www.youtube.com/watch?v=abc".toList ∧
    ((⟨some "T".toList, some "https://www.youtube.com/watch?v=abc".toList, none⟩ :
        VideoRec).title.isSome = true ∧
     (⟨some "T".toList, some "https://www.youtube.com/watch?v=abc".toList, none⟩ :
        VideoRec).url.isSome = true) :=
  ⟨by decide,
   youtube_records_require_title_and_url
     "Title: T\nURL: https://www.youtube.com/watch?v=abc".toList
     ⟨some "T".toList, some "https://www.youtube.com/watch?v=abc".toList, none⟩
     (by decide)⟩

/-- C3: for every collection whose on-disk index fails to load (corrupt
file, schema mismatch — both modelled by `DiskIndex.corrupt` — or missing
path), construction never raises (the embedding is a total function exactly
because the source catches the load failure): it produces the fresh
placeholder-seeded store with exactly one chunk, persists it immediately,
and a subsequent `add_text` on that instance succeeds, returning the chunk
count and leaving a non-empty index. -/
theorem init_vector_store_load_failure_fallback (disk : DiskIndex)
    (chunker : PyStr → List PyStr) (text : PyStr)
    (metadata : List (String × String))
    (hfail : ∀ docs, disk ≠ DiskIndex.valid docs) :
    rag_init_vector_store disk = rag_create_new_vector_store ∧
    (rag_init_vector_store disk).docs = [initialization_document] ∧
    (rag_init_vector_store disk).disk = DiskIndex.valid [initialization_document] ∧
    (rag_add_text chunker (rag_init_vector_store disk) text metadata).1
      = (chunker text).length ∧
    (rag_add_text chunker (rag_init_vector_store disk) text metadata).2.docs ≠ [] := by
  have hinit : rag_init_vector_store disk = rag_create_new_vector_store := by
    cases disk with
    | missing => rfl
    | corrupt => rfl
    | valid docs => exact absurd rfl (hfail docs)
  refine ⟨hinit, by rw [hinit]; rfl, by rw [hinit]; rfl, rfl, ?_⟩
  rw [hinit]
  simp [rag_add_text, rag_create_new_vector_store]

/-- Witness for C3: a corrupt on-disk index falls back to the fresh
placeholder store, and ingesting text afterwards leaves a non-empty
index. -/
theorem init_vector_store_load_failure_fallback_witness :
    rag_init_vector_store DiskIndex.corrupt = rag_create_new_vector_store ∧
    (rag_add_text (fun t => [t]) (rag_init_vector_store DiskIndex.corrupt)
        "hello world".toList []).2.docs ≠ [] :=
  ⟨(init_vector_store_load_failure_fallback DiskIndex.corrupt (fun t => [t])
      "hello world".toList [] (fun _ h => DiskIndex.noConfusion h)).1,
   (init_vector_store_load_failure_fallback DiskIndex.corrupt (fun t => [t])
      "hello world".toList [] (fun _ h => DiskIndex.noConfusion h)).2.2.2.2⟩

/-- C8 (code bug): `get_collection_info` looks up `index_to_docstore_id` on
the raw FAISS index object, but that mapping is an attribute of the
vector-store wrapper; the access raises `AttributeError` and the bare
`except:` falls back to `0`.  On the freshly created placeholder collection
the reported `vector_count` is therefore `0` while the live vector count is
`1` — the claimed report of the live count never happens. -/
theorem get_collection_info_reports_zero_not_live_count :
    (get_collection_info "default" "data/vector_stores/default" "all-MiniLM-L6-v2"
        fresh_vector_store).vector_count = 0 ∧
    live_vector_count fresh_vector_store = 1 ∧
    (get_collection_info "default" "data/vector_stores/default" "all-MiniLM-L6-v2"
        fresh_vector_store).vector_count ≠ live_vector_count fresh_vector_store :=
  ⟨rfl, rfl, by decide⟩

/-- C7 (code bug): `run_rag_agent` always lands in its `except` clause —
`RAGSystem` has no method `get_relevant_documents`, and even past that the
body references the never-imported `run_research_agent` — so for every
question and collection it returns the RAG failure sentinel and an error
dictionary; no retrieval results are attached and no orchestrator run
happens. -/
theorem run_rag_agent_always_returns_error_sentinel (question collection : PyStr) :
    run_rag_agent question collection =
      (some "An error occurred while processing your request with RAG.".toList,
       RagRunResult.errorDict
         "AttributeError: RAGSystem object has no attribute get_relevant_documents") :=
  rfl

/-- C2: for every question and every internal exception raised during
workflow execution, `run_research_agent` never propagates the exception: it
returns the sentinel failure message paired with an `error` dictionary. -/
theorem run_research_agent_catches_all_internal_errors (cfg : SearchConfig)
    (env : Env) (question : PyStr) (e : String)
    (h : agent_invoke cfg env question = Except.error e) :
    run_research_agent cfg env question =
      (some "An error occurred while processing your request.".toList,
       RunResult.errorDict e) := by
  unfold run_research_agent
  rw [h]

/-- Witness for C2: with an unreachable synthesis service the workflow
raises internally, and the caller still receives the sentinel plus the
error dictionary. -/
theorem run_research_agent_catches_all_internal_errors_witness :
    agent_invoke cfg_all env_summary_down "Q".toList =
      Except.error "synthesis service unreachable" ∧
    run_research_agent cfg_all env_summary_down "Q".toList =
      (some "An error occurred while processing your request.".toList,
       RunResult.errorDict "synthesis service unreachable") :=
  ⟨rfl,
   run_research_agent_catches_all_internal_errors cfg_all env_summary_down
     "Q".toList "synthesis service unreachable" rfl⟩

/-- The web node appends exactly one web-sourced entry. -/
theorem web_log_count_process_web (cfg : SearchConfig) (env : Env)
    (s : ResearchState) :
    web_log_count (process_web_search cfg env s) = web_log_count s + 1 := by
  simp [web_log_count, process_web_search, count_web_logs, List.filter_append]

/-- The academic node leaves the web-entry count unchanged. -/
theorem web_log_count_process_academic (cfg : SearchConfig) (env : Env)
    (s : ResearchState) :
    web_log_count (process_academic_search cfg env s) = web_log_count s := by
  simp [web_log_count, process_academic_search, count_web_logs, List.filter_append,
    (by decide : ("academic".toList == "web".toList) = false)]

/-- The youtube node leaves the web-entry count unchanged. -/
theorem web_log_count_process_youtube (cfg : SearchConfig) (env : Env)
    (s : ResearchState) :
    web_log_count (process_youtube_search cfg env s) = web_log_count s := by
  simp [web_log_count, process_youtube_search, count_web_logs, List.filter_append,
    (by decide : ("youtube".toList == "web".toList) = false)]

/-- The social node leaves the web-entry count unchanged. -/
theorem web_log_count_process_social (cfg : SearchConfig) (env : Env)
    (s : ResearchState) :
    web_log_count (process_social_media_search cfg env s) = web_log_count s := by
  simp [web_log_count, process_social_media_search, count_web_logs, List.filter_append,
    (by decide : ("social_media".toList == "web".toList) = false)]

/-- Reflection does not touch the log. -/
theorem search_logs_reflect (cfg : SearchConfig) (r : PyStr) (s : ResearchState) :
    (reflect_on_research cfg r s).search_logs = s.search_logs := rfl

/-- Reflection leaves the web-entry count unchanged. -/
theorem web_log_count_reflect (cfg : SearchConfig) (r : PyStr) (s : ResearchState) :
    web_log_count (reflect_on_research cfg r s) = web_log_count s := rfl

/-- Summarization does not touch the log. -/
theorem search_logs_summary (f : PyStr) (s : ResearchState) :
    (create_final_summary f s).search_logs = s.search_logs := rfl

/-- Summarization leaves the strategy unchanged. -/
theorem strategy_summary (f : PyStr) (s : ResearchState) :
    (create_final_summary f s).next_search_strategy = s.next_search_strategy := rfl

/-- The four search nodes all clear the strategy. -/
theorem strategy_process_web (cfg : SearchConfig) (env : Env) (s : ResearchState) :
    (process_web_search cfg env s).next_search_strategy = none := rfl

/-- The academic node clears the strategy. -/
theorem strategy_process_academic (cfg : SearchConfig) (env : Env)
    (s : ResearchState) :
    (process_academic_search cfg env s).next_search_strategy = none := rfl

/-- The youtube node clears the strategy. -/
theorem strategy_process_youtube (cfg : SearchConfig) (env : Env)
    (s : ResearchState) :
    (process_youtube_search cfg env s).next_search_strategy = none := rfl

/-- The social node clears the strategy. -/
theorem strategy_process_social (cfg : SearchConfig) (env : Env)
    (s : ResearchState) :
    (process_social_media_search cfg env s).next_search_strategy = none := rfl

/-- The router reaches the web node only from a `web_search` strategy. -/
theorem route_to_web_needs_web_strategy (s : ResearchState)
    (h : route_edge (route_search s) = Node.web) :
    s.next_search_strategy = some "web_search".toList := by
  unfold route_search at h
  by_cases g1 : s.next_search_strategy = some "web_search".toList
  · exact g1
  · exfalso
    rw [if_neg g1] at h
    by_cases g2 : s.next_search_strategy = some "academic_search".toList
    · rw [if_pos g2] at h; exact absurd h (by decide)
    · rw [if_neg g2] at h
      by_cases g3 : s.next_search_strategy = some "youtube_search".toList
      · rw [if_pos g3] at h; exact absurd h (by decide)
      · rw [if_neg g3] at h
        by_cases g4 : s.next_search_strategy = some "social_media_search".toList
        · rw [if_pos g4] at h; exact absurd h (by decide)
        · rw [if_neg g4] at h
          by_cases g5 : s.next_search_strategy = some "summarize".toList
          · rw [if_pos g5] at h; exact absurd h (by decide)
          · rw [if_neg g5] at h; exact absurd h (by decide)

/-- A `web_search` strategy routes to the web node. -/
theorem web_strategy_routes_to_web (s : ResearchState)
    (h : s.next_search_strategy = some "web_search".toList) :
    route_edge (route_search s) = Node.web := by
  unfold route_search
  rw [if_pos h]
  decide

/-- The router never dispatches to the reflection node. -/
theorem route_edge_ne_reflect (label : PyStr) : route_edge label ≠ Node.reflect := by
  unfold route_edge
  split_ifs <;> decide

/-- The post-reflection edge never leads to the web node. -/
theorem continue_edge_ne_web (label : PyStr) : continue_edge label ≠ Node.web := by
  unfold continue_edge
  split_ifs <;> decide

/-- The post-reflection edge never leads back to the reflection node. -/
theorem continue_edge_ne_reflect (label : PyStr) :
    continue_edge label ≠ Node.reflect := by
  unfold continue_edge
  split_ifs <;> decide

/-- Reflection always chooses some next strategy. -/
theorem reflect_strategy_isSome (cfg : SearchConfig) (r : PyStr)
    (s : ResearchState) :
    (reflect_on_research cfg r s).next_search_strategy.isSome = true := by
  unfold reflect_on_research
  dsimp only
  split
  · rfl
  · split
    · split
      · rfl
      · split
        · rfl
        · rfl
    · rfl

/-- Under the hard cap, reflection forces termination into summarize
regardless of the reflection text. -/
theorem reflect_cap_forces_summarize (cfg : SearchConfig) (r : PyStr)
    (s : ResearchState) (h : 2 ≤ loops_completed s) :
    (reflect_on_research cfg r s).needs_more_research = false ∧
    (reflect_on_research cfg r s).next_search_strategy = some "summarize".toList := by
  unfold reflect_on_research
  dsimp only
  rw [if_pos h]
  exact ⟨rfl, rfl⟩

/-- Reflection can choose `web_search` only while at most two web entries
are logged. -/
theorem reflect_web_strategy_bounds_count (cfg : SearchConfig) (r : PyStr)
    (s : ResearchState)
    (h : (reflect_on_research cfg r s).next_search_strategy
        = some "web_search".toList) :
    web_log_count s ≤ 2 := by
  by_cases hcap : 2 ≤ loops_completed s
  · exfalso
    have := (reflect_cap_forces_summarize cfg r s hcap).2
    rw [this] at h
    exact absurd h (by decide)
  · unfold loops_completed at hcap
    omega

/-- The hard-cap invariant: in every reachable configuration the log holds
at most three web entries, a pending `web_search` strategy implies at most
two, and being at the web node implies at most two. -/
theorem web_cap_invariant {cfg : SearchConfig} {env : Env} {q : PyStr}
    {n : Node} {s : ResearchState} (h : Reachable cfg env q n s) :
    web_log_count s ≤ 3 ∧
    (s.next_search_strategy = some "web_search".toList → web_log_count s ≤ 2) ∧
    (n = Node.web → web_log_count s ≤ 2) := by
  induction h with
  | init =>
    refine ⟨?_, fun _ => ?_, fun hc => absurd hc (by decide)⟩ <;>
      simp [web_log_count, initial_state, count_web_logs]
  | @step n s n2 s2 hr hstep ih =>
    cases n with
    | route =>
      simp only [stepFn, Except.ok.injEq, Prod.mk.injEq] at hstep
      obtain ⟨hn2, hs2⟩ := hstep
      subst hn2; subst hs2
      refine ⟨ih.1, ih.2.1, fun hw => ?_⟩
      exact ih.2.1 (route_to_web_needs_web_strategy s hw)
    | web =>
      simp only [stepFn, Except.ok.injEq, Prod.mk.injEq] at hstep
      obtain ⟨hn2, hs2⟩ := hstep
      subst hn2; subst hs2
      have hcnt := web_log_count_process_web cfg env s
      have hle := ih.2.2 rfl
      refine ⟨by omega, fun hc => ?_, fun hc => absurd hc (by decide)⟩
      rw [strategy_process_web] at hc
      exact absurd hc (by simp)
    | academic =>
      simp only [stepFn, Except.ok.injEq, Prod.mk.injEq] at hstep
      obtain ⟨hn2, hs2⟩ := hstep
      subst hn2; subst hs2
      have hcnt := web_log_count_process_academic cfg env s
      refine ⟨by omega, fun hc => ?_, fun hc => absurd hc (by decide)⟩
      rw [strategy_process_academic] at hc
      exact absurd hc (by simp)
    | youtube =>
      simp only [stepFn, Except.ok.injEq, Prod.mk.injEq] at hstep
      obtain ⟨hn2, hs2⟩ := hstep
      subst hn2; subst hs2
      have hcnt := web_log_count_process_youtube cfg env s
      refine ⟨by omega, fun hc => ?_, fun hc => absurd hc (by decide)⟩
      rw [strategy_process_youtube] at hc
      exact absurd hc (by simp)
    | social =>
      simp only [stepFn, Except.ok.injEq, Prod.mk.injEq] at hstep
      obtain ⟨hn2, hs2⟩ := hstep
      subst hn2; subst hs2
      have hcnt := web_log_count_process_social cfg env s
      refine ⟨by omega, fun hc => ?_, fun hc => absurd hc (by decide)⟩
      rw [strategy_process_social] at hc
      exact absurd hc (by simp)
    | reflect =>
      simp only [stepFn] at hstep
      cases henv : env.reflection_chain s.question s.current_answer with
      | error e =>
        rw [henv] at hstep
        exact Except.noConfusion hstep
      | ok r =>
        rw [henv] at hstep
        simp only [Except.ok.injEq, Prod.mk.injEq] at hstep
        obtain ⟨hn2, hs2⟩ := hstep
        subst hn2; subst hs2
        have hcnt := web_log_count_reflect cfg r s
        refine ⟨by omega, fun hc => ?_, fun hc => ?_⟩
        · rw [hcnt]
          exact reflect_web_strategy_bounds_count cfg r s hc
        · exact absurd hc (continue_edge_ne_web _)
    | summarize =>
      simp only [stepFn] at hstep
      cases henv : env.summary_chain s.question (organized_content s) with
      | error e =>
        rw [henv] at hstep
        exact Except.noConfusion hstep
      | ok f =>
        rw [henv] at hstep
        simp only [Except.ok.injEq, Prod.mk.injEq] at hstep
        obtain ⟨hn2, hs2⟩ := hstep
        subst hn2; subst hs2
        have hcnt : web_log_count (create_final_summary f s) = web_log_count s := rfl
        refine ⟨by omega, fun hc => ?_, fun hc => absurd hc (by decide)⟩
        rw [hcnt]
        rw [strategy_summary] at hc
        exact ih.2.1 hc
    | finished =>
      simp only [stepFn, Except.ok.injEq, Prod.mk.injEq] at hstep
      obtain ⟨hn2, hs2⟩ := hstep
      subst hn2; subst hs2
      exact ⟨ih.1, ih.2.1, fun hc => absurd hc (by decide)⟩

/-- C1: for every run started with all four sources enabled and
`next_search_strategy` seeded to `web_search` (the seeding is built into
`initial_state`), the number of web-sourced log entries in any reachable
state never exceeds 3; and whenever reflection observes
`loops_completed >= 2` it forces `needs_more_research = false` and
`next_search_strategy = "summarize"` regardless of the reflection text. -/
theorem web_sourced_entries_never_exceed_three (cfg : SearchConfig) (env : Env)
    (q : PyStr) (n : Node) (s : ResearchState) (r : PyStr)
    (henabled : all_four_enabled cfg) (hreach : Reachable cfg env q n s) :
    web_log_count s ≤ 3 ∧
    (2 ≤ loops_completed s →
      (reflect_on_research cfg r s).needs_more_research = false ∧
      (reflect_on_research cfg r s).next_search_strategy
        = some "summarize".toList) :=
  ⟨(web_cap_invariant hreach).1, fun hcap => reflect_cap_forces_summarize cfg r s hcap⟩

/-- Witness for C1 at an all-enabled configuration and the seeded initial
state. -/
theorem web_sourced_entries_never_exceed_three_witness :
    all_four_enabled cfg_all ∧ web_log_count (initial_state "Q".toList) ≤ 3 :=
  ⟨⟨rfl, Or.inl rfl, rfl, Or.inl rfl⟩,
   (web_sourced_entries_never_exceed_three cfg_all env_yes "Q".toList Node.route
      (initial_state "Q".toList) "R".toList ⟨rfl, Or.inl rfl, rfl, Or.inl rfl⟩
      Reachable.init).1⟩

/-- Reachability invariant: the machine sits at the reflection node exactly
when the strategy has been cleared to null. -/
theorem reflect_iff_strategy_none {cfg : SearchConfig} {env : Env} {q : PyStr}
    {n : Node} {s : ResearchState} (h : Reachable cfg env q n s) :
    n = Node.reflect ↔ s.next_search_strategy = none := by
  induction h with
  | init =>
    constructor
    · intro hc; exact absurd hc (by decide)
    · intro hc; simp [initial_state] at hc
  | @step n s n2 s2 hr hstep ih =>
    cases n with
    | route =>
      simp only [stepFn, Except.ok.injEq, Prod.mk.injEq] at hstep
      obtain ⟨hn2, hs2⟩ := hstep
      subst hn2; subst hs2
      constructor
      · intro hc; exact absurd hc (route_edge_ne_reflect _)
      · intro hc; exact absurd (ih.mpr hc) (by decide)
    | web =>
      simp only [stepFn, Except.ok.injEq, Prod.mk.injEq] at hstep
      obtain ⟨hn2, hs2⟩ := hstep
      subst hn2; subst hs2
      simp [strategy_process_web]
    | academic =>
      simp only [stepFn, Except.ok.injEq, Prod.mk.injEq] at hstep
      obtain ⟨hn2, hs2⟩ := hstep
      subst hn2; subst hs2
      simp [strategy_process_academic]
    | youtube =>
      simp only [stepFn, Except.ok.injEq, Prod.mk.injEq] at hstep
      obtain ⟨hn2, hs2⟩ := hstep
      subst hn2; subst hs2
      simp [strategy_process_youtube]
    | social =>
      simp only [stepFn, Except.ok.injEq, Prod.mk.injEq] at hstep
      obtain ⟨hn2, hs2⟩ := hstep
      subst hn2; subst hs2
      simp [strategy_process_social]
    | reflect =>
      simp only [stepFn] at hstep
      cases henv : env.reflection_chain s.question s.current_answer with
      | error e =>
        rw [henv] at hstep
        exact Except.noConfusion hstep
      | ok r =>
        rw [henv] at hstep
        simp only [Except.ok.injEq, Prod.mk.injEq] at hstep
        obtain ⟨hn2, hs2⟩ := hstep
        subst hn2; subst hs2
        constructor
        · intro hc; exact absurd hc (continue_edge_ne_reflect _)
        · intro hc
          have := reflect_strategy_isSome cfg r s
          rw [hc] at this
          exact absurd this (by decide)
    | summarize =>
      simp only [stepFn] at hstep
      cases henv : env.summary_chain s.question (organized_content s) with
      | error e =>
        rw [henv] at hstep
        exact Except.noConfusion hstep
      | ok f =>
        rw [henv] at hstep
        simp only [Except.ok.injEq, Prod.mk.injEq] at hstep
        obtain ⟨hn2, hs2⟩ := hstep
        subst hn2; subst hs2
        constructor
        · intro hc; exact absurd hc (by decide)
        · intro hc
          rw [strategy_summary] at hc
          exact absurd (ih.mpr hc) (by decide)
    | finished =>
      simp only [stepFn, Except.ok.injEq, Prod.mk.injEq] at hstep
      obtain ⟨hn2, hs2⟩ := hstep
      subst hn2; subst hs2
      constructor
      · intro hc; exact absurd hc (by decide)
      · intro hc; exact absurd (ih.mpr hc) (by decide)

/-- C9: each of the four search-processing transitions appends exactly one
log entry and clears `next_search_strategy` to null; the reflection
transition always sets it to a non-null value; and in every reachable state
the machine is at the reflection node exactly when the strategy is null. -/
theorem search_nodes_log_once_and_clear_strategy (cfg : SearchConfig) (env : Env)
    (q : PyStr) (n : Node) (s : ResearchState) (r : PyStr)
    (hreach : Reachable cfg env q n s) :
    (process_web_search cfg env s).search_logs.length = s.search_logs.length + 1 ∧
    (process_web_search cfg env s).next_search_strategy = none ∧
    (process_academic_search cfg env s).search_logs.length
      = s.search_logs.length + 1 ∧
    (process_academic_search cfg env s).next_search_strategy = none ∧
    (process_youtube_search cfg env s).search_logs.length
      = s.search_logs.length + 1 ∧
    (process_youtube_search cfg env s).next_search_strategy = none ∧
    (process_social_media_search cfg env s).search_logs.length
      = s.search_logs.length + 1 ∧
    (process_social_media_search cfg env s).next_search_strategy = none ∧
    (reflect_on_research cfg r s).next_search_strategy.isSome = true ∧
    (n = Node.reflect ↔ s.next_search_strategy = none) :=
  ⟨by simp [process_web_search],
   strategy_process_web cfg env s,
   by simp [process_academic_search],
   strategy_process_academic cfg env s,
   by simp [process_youtube_search],
   strategy_process_youtube cfg env s,
   by simp [process_social_media_search],
   strategy_process_social cfg env s,
   reflect_strategy_isSome cfg r s,
   reflect_iff_strategy_none hreach⟩

/-- Witness for C9 at the seeded initial state. -/
theorem search_nodes_log_once_and_clear_strategy_witness :
    (process_web_search cfg_all env_yes (initial_state "Q".toList)).search_logs.length
      = (initial_state "Q".toList).search_logs.length + 1 ∧
    (Node.route = Node.reflect ↔
      (initial_state "Q".toList).next_search_strategy = none) :=
  ⟨(search_nodes_log_once_and_clear_strategy cfg_all env_yes "Q".toList Node.route
      (initial_state "Q".toList) "R".toList Reachable.init).1,
   (search_nodes_log_once_and_clear_strategy cfg_all env_yes "Q".toList Node.route
      (initial_state "Q".toList) "R".toList Reachable.init).2.2.2.2.2.2.2.2.2⟩

/-- Every reachable configuration either already holds a web-sourced log
entry, or is still on the seeded path to the first web call (at the router
with the seeded `web_search` strategy, or at the web node itself). -/
theorem web_entry_or_seeded_path {cfg : SearchConfig} {env : Env} {q : PyStr}
    {n : Node} {s : ResearchState} (h : Reachable cfg env q n s) :
    1 ≤ web_log_count s ∨
      (n = Node.route ∧ s.next_search_strategy = some "web_search".toList) ∨
      n = Node.web := by
  induction h with
  | init => exact Or.inr (Or.inl ⟨rfl, rfl⟩)
  | @step n s n2 s2 hr hstep ih =>
    cases n with
    | route =>
      simp only [stepFn, Except.ok.injEq, Prod.mk.injEq] at hstep
      obtain ⟨hn2, hs2⟩ := hstep
      subst hn2; subst hs2
      rcases ih with h1 | h2 | h3
      · exact Or.inl h1
      · exact Or.inr (Or.inr (web_strategy_routes_to_web s h2.2))
      · exact absurd h3 (by decide)
    | web =>
      simp only [stepFn, Except.ok.injEq, Prod.mk.injEq] at hstep
      obtain ⟨hn2, hs2⟩ := hstep
      subst hn2; subst hs2
      have := web_log_count_process_web cfg env s
      exact Or.inl (by omega)
    | academic =>
      simp only [stepFn, Except.ok.injEq, Prod.mk.injEq] at hstep
      obtain ⟨hn2, hs2⟩ := hstep
      subst hn2; subst hs2
      rcases ih with h1 | h2 | h3
      · have := web_log_count_process_academic cfg env s
        exact Or.inl (by omega)
      · exact absurd h2.1 (by decide)
      · exact absurd h3 (by decide)
    | youtube =>
      simp only [stepFn, Except.ok.injEq, Prod.mk.injEq] at hstep
      obtain ⟨hn2, hs2⟩ := hstep
      subst hn2; subst hs2
      rcases ih with h1 | h2 | h3
      · have := web_log_count_process_youtube cfg env s
        exact Or.inl (by omega)
      · exact absurd h2.1 (by decide)
      · exact absurd h3 (by decide)
    | social =>
      simp only [stepFn, Except.ok.injEq, Prod.mk.injEq] at hstep
      obtain ⟨hn2, hs2⟩ := hstep
      subst hn2; subst hs2
      rcases ih with h1 | h2 | h3
      · have := web_log_count_process_social cfg env s
        exact Or.inl (by omega)
      · exact absurd h2.1 (by decide)
      · exact absurd h3 (by decide)
    | reflect =>
      simp only [stepFn] at hstep
      cases henv : env.reflection_chain s.question s.current_answer with
      | error e =>
        rw [henv] at hstep
        exact Except.noConfusion hstep
      | ok r =>
        rw [henv] at hstep
        simp only [Except.ok.injEq, Prod.mk.injEq] at hstep
        obtain ⟨hn2, hs2⟩ := hstep
        subst hn2; subst hs2
        rcases ih with h1 | h2 | h3
        · have := web_log_count_reflect cfg r s
          exact Or.inl (by omega)
        · exact absurd h2.1 (by decide)
        · exact absurd h3 (by decide)
    | summarize =>
      simp only [stepFn] at hstep
      cases henv : env.summary_chain s.question (organized_content s) with
      | error e =>
        rw [henv] at hstep
        exact Except.noConfusion hstep
      | ok f =>
        rw [henv] at hstep
        simp only [Except.ok.injEq, Prod.mk.injEq] at hstep
        obtain ⟨hn2, hs2⟩ := hstep
        subst hn2; subst hs2
        rcases ih with h1 | h2 | h3
        · exact Or.inl h1
        · exact absurd h2.1 (by decide)
        · exact absurd h3 (by decide)
    | finished =>
      simp only [stepFn, Except.ok.injEq, Prod.mk.injEq] at hstep
      obtain ⟨hn2, hs2⟩ := hstep
      subst hn2; subst hs2
      rcases ih with h1 | h2 | h3
      · exact Or.inl h1
      · exact absurd h2.1 (by decide)
      · exact absurd h3 (by decide)

/-- C6 (amended): disabling web search does not make the loop counter read
`-1` — the run is seeded with `web_search` and the web node appends a
web-sourced log entry even when the tool is disabled (it logs the
"Web search is disabled." text), so every state at the reflection node
observes `loops_completed >= 0`. -/
theorem reflect_always_observes_nonnegative_loops (cfg : SearchConfig) (env : Env)
    (q : PyStr) (n : Node) (s : ResearchState)
    (hweb : cfg.web_search_enabled = false) (hreach : Reachable cfg env q n s)
    (hn : n = Node.reflect) :
    0 ≤ loops_completed s := by
  rcases web_entry_or_seeded_path hreach with h1 | h2 | h3
  · unfold loops_completed
    omega
  · rw [hn] at h2
    exact absurd h2.1 (by decide)
  · rw [hn] at h3
    exact absurd h3 (by decide)

/-- Witness for C6 (amended): the state entering the first reflection of a
web-disabled run. -/
theorem reflect_always_observes_nonnegative_loops_witness :
    0 ≤ loops_completed
        (process_web_search cfg_web_disabled env_yes (initial_state "Q".toList)) :=
  reflect_always_observes_nonnegative_loops cfg_web_disabled env_yes "Q".toList
    Node.reflect
    (process_web_search cfg_web_disabled env_yes (initial_state "Q".toList)) rfl
    (Reachable.step (Reachable.step Reachable.init rfl) rfl) rfl

/-- C6 counterexample: a concrete run with web search disabled (and the
other sources enabled) under always-continue reflection verdicts.  The
first reflection already observes `loops_completed = 0`, not `-1`, and the
run terminates through the hard cap with three web-sourced entries —
so the counter does not permanently read `-1` and the cap does trigger. -/
theorem disabled_web_loop_counter_counterexample :
    cfg_web_disabled.web_search_enabled = false ∧
    loops_completed
        (process_web_search cfg_web_disabled env_yes (initial_state "Q".toList))
      = 0 ∧
    run_sources_and_done cfg_web_disabled env_yes "Q".toList =
      some (["web".toList, "academic".toList, "youtube".toList,
             "social_media".toList, "web".toList, "web".toList], true) :=
  ⟨rfl, by decide, by decide⟩

/-- One non-terminal superstep of the bounded runner. -/
theorem runNodes_step (cfg : SearchConfig) (env : Env) (fuel : Nat) (n : Node)
    (s : ResearchState) (n2 : Node) (s2 : ResearchState) (hn : n ≠ Node.finished)
    (h : stepFn cfg env n s = .ok (n2, s2)) :
    runNodes cfg env (fuel + 1) n s = runNodes cfg env fuel n2 s2 := by
  show (if n = Node.finished then Except.ok s
      else
        match stepFn cfg env n s with
        | .error e => .error e
        | .ok (n2, s2) => runNodes cfg env fuel n2 s2)
    = runNodes cfg env fuel n2 s2
  rw [if_neg hn, h]

/-- The runner stops at the terminal node. -/
theorem runNodes_finished (cfg : SearchConfig) (env : Env) (fuel : Nat)
    (s : ResearchState) :
    runNodes cfg env (fuel + 1) Node.finished s = .ok s := by
  show (if Node.finished = Node.finished then Except.ok s
      else
        match stepFn cfg env Node.finished s with
        | .error e => .error e
        | .ok (n2, s2) => runNodes cfg env fuel n2 s2)
    = Except.ok s
  rw [if_pos rfl]

/-- When the reflection text carries no continuation marker and the cap has
not been reached, reflection goes straight to summarize. -/
theorem reflect_no_marker_summarize (cfg : SearchConfig) (r : PyStr)
    (s : ResearchState) (hm : pyContains further_research_marker r = false)
    (hl : ¬ 2 ≤ loops_completed s) :
    (reflect_on_research cfg r s).needs_more_research = false ∧
    (reflect_on_research cfg r s).next_search_strategy = some "summarize".toList := by
  unfold reflect_on_research
  dsimp only
  rw [if_neg hl, hm, if_neg (by decide : ¬ (false = true))]
  exact ⟨rfl, rfl⟩

/-- C5 (amended): with all four sources disabled and reflection verdicts
that never contain the continuation marker, the first reflection routes
directly to summarize: the final trace holds exactly one web-sourced entry
(from the seeded initial web call, which logs the disabled message) and a
final answer.  When a verdict does contain the marker this fails — see the
counterexample — because the new-loop fallback re-issues `web_search`
without consulting the enable flags. -/
theorem first_reflect_summarizes_without_marker (cfg : SearchConfig) (env : Env)
    (q : PyStr) (hdis : all_four_disabled cfg)
    (hrefl : ∀ a b, ∃ r, env.reflection_chain a b = Except.ok r ∧
        pyContains further_research_marker r = false)
    (hsum : ∀ a b, ∃ f, env.summary_chain a b = Except.ok f) :
    run_sources_and_done cfg env q = some (["web".toList], true) := by
  set s0 := initial_state q with hs0
  have h1 : stepFn cfg env .route s0 = .ok (.web, s0) := rfl
  set s1 := process_web_search cfg env s0 with hs1
  have h2 : stepFn cfg env .web s0 = .ok (.reflect, s1) := rfl
  obtain ⟨r, hr, hmark⟩ := hrefl s1.question s1.current_answer
  have hcount : web_log_count s1 = 1 := by
    have hst := web_log_count_process_web cfg env s0
    have h0 : web_log_count s0 = 0 := by
      rw [hs0]
      simp [web_log_count, initial_state, count_web_logs]
    rw [hs1]
    omega
  have hloops : ¬ 2 ≤ loops_completed s1 := by
    unfold loops_completed
    omega
  set s2 := reflect_on_research cfg r s1 with hs2
  have hstrat : s2.next_search_strategy = some "summarize".toList := by
    rw [hs2]
    exact (reflect_no_marker_summarize cfg r s1 hmark hloops).2
  have hsc : should_continue s2 = "summarize".toList := by
    unfold should_continue
    rw [hstrat, if_pos rfl]
  have h3 : stepFn cfg env .reflect s1 = .ok (.summarize, s2) := by
    simp only [stepFn]
    rw [hr]
    dsimp only
    rw [← hs2, hsc]
    rfl
  obtain ⟨f, hf⟩ := hsum s2.question (organized_content s2)
  have h4 : stepFn cfg env .summarize s2 = .ok (.finished, create_final_summary f s2) := by
    simp only [stepFn]
    rw [hf]
  have e1 : runNodes cfg env 25 .route s0 = runNodes cfg env 24 .web s0 :=
    runNodes_step cfg env 24 .route s0 .web s0 (by decide) h1
  have e2 : runNodes cfg env 24 .web s0 = runNodes cfg env 23 .reflect s1 :=
    runNodes_step cfg env 23 .web s0 .reflect s1 (by decide) h2
  have e3 : runNodes cfg env 23 .reflect s1 = runNodes cfg env 22 .summarize s2 :=
    runNodes_step cfg env 22 .reflect s1 .summarize s2 (by decide) h3
  have e4 : runNodes cfg env 22 .summarize s2
      = runNodes cfg env 21 .finished (create_final_summary f s2) :=
    runNodes_step cfg env 21 .summarize s2 .finished (create_final_summary f s2)
      (by decide) h4
  have e5 : runNodes cfg env 21 .finished (create_final_summary f s2)
      = .ok (create_final_summary f s2) :=
    runNodes_finished cfg env 20 (create_final_summary f s2)
  have hrun : runNodes cfg env 25 .route s0 = .ok (create_final_summary f s2) :=
    (((e1.trans e2).trans e3).trans e4).trans e5
  have hlogs : (create_final_summary f s2).search_logs.map (fun log => log.source)
      = ["web".toList] := by
    rw [search_logs_summary, hs2, search_logs_reflect, hs1, hs0]
    simp [process_web_search, initial_state]
  unfold run_sources_and_done agent_invoke
  rw [← hs0, hrun]
  dsimp only
  rw [hlogs]
  rfl

/-- Witness for C5 (amended): the all-disabled configuration with a
marker-free reflection environment yields exactly one web entry and a
final answer. -/
theorem first_reflect_summarizes_without_marker_witness :
    run_sources_and_done cfg_all_disabled env_no "Q".toList
      = some (["web".toList], true) :=
  first_reflect_summarizes_without_marker cfg_all_disabled env_no "Q".toList
    ⟨rfl, rfl, rfl, rfl, rfl, rfl⟩
    (fun _ _ => ⟨"FURTHER_RESEARCH_NEEDED: No".toList, rfl, by decide⟩)
    (fun _ _ => ⟨"FINAL".toList, rfl⟩)

/-- C5 counterexample: with all four sources disabled but a verdict that
does contain the continuation marker, the first reflection does not route
to summarize — it re-issues `web_search` — and the completed run logs three
web-sourced entries, not one.  The claim's "for every possible reflection
verdict" is therefore false. -/
theorem all_disabled_yes_verdict_counterexample :
    all_four_disabled cfg_all_disabled ∧
    (reflect_on_research cfg_all_disabled "FURTHER_RESEARCH_NEEDED: Yes".toList
        (process_web_search cfg_all_disabled env_yes
          (initial_state "Q".toList))).next_search_strategy
      = some "web_search".toList ∧
    run_sources_and_done cfg_all_disabled env_yes "Q".toList =
      some (["web".toList, "web".toList, "web".toList], true) :=
  ⟨⟨rfl, rfl, rfl, rfl, rfl, rfl⟩, by decide, by decide⟩
